import Mathlib

/-!
# Verification development for the empirical_lsm lag-feature and model-assembly core

This file gives a shallow embedding of the core functions of the repository:

* `scripts/lag_average_assessment.py` — `rolling_window`, `window_to_rows`,
  `rolling_mean`, `metric_complete`;
* `scripts/residuals_analysis.py` — `get_lagged_df`;
* `ubermodel/models.py` — `get_model_from_def`, `get_model_from_dict`,
  `get_clusterer`, `get_scaler`, `get_model_class`,

and proves or refutes the specification claims about them.

Modelling conventions:

* Python floats that are always finite are modelled as `ℚ`; vectors that may
  contain NaN/inf are `List (Option ℚ)` with `none` for a non-finite entry.
* A Python `str` is modelled as `List Char` where the string is inspected
  character by character (window labels), and as Lean `String` where it is
  only compared for equality (model / class / transform names).
* Functions that can raise return `Except ConfigError _`; `ConfigError` is the
  specification's error taxonomy, with one constructor per raise site of the
  code (including the bare-string raise, the integrality `assert`, Python's
  `ZeroDivisionError` and numpy's `ValueError`).
* A numeric matrix is modelled as its list of columns (the code operates on
  `data.T`, i.e. column-wise).
-/

namespace EmpiricalLsm

/-- Error taxonomy of the specification (section 7).  Each constructor records
one failure site of the code: `badMagnitude` is `int('')` (ValueError),
`unknownUnit` is the bare-string raise in `window_to_rows`, `nonIntegral` is
the `assert rows == int(rows)`, `zeroDivision` is Python's division by zero,
`valueError` is numpy's rejection of a negative window-shape, and the last
three are the raises in `models.py`. -/
inductive ConfigError where
  | badMagnitude : ConfigError
  | unknownUnit (u : List Char) : ConfigError
  | nonIntegral : ConfigError
  | zeroDivision : ConfigError
  | valueError : ConfigError
  | unknownTransforms (keys : List String) : ConfigError
  | unknownModelClass : ConfigError
  | unknownModel : ConfigError
deriving DecidableEq, Repr

/-! ## window_to_rows (scripts/lag_average_assessment.py, lines 41-62) -/

/-- Embedding of `re.match('(\d*)([a-zA-Z]*)', window).groups()`: the leading
run of digits, then the following run of ASCII letters. -/
def parseWindow (window : List Char) : List Char × List Char :=
  let digits := window.takeWhile Char.isDigit
  let rest := window.dropWhile Char.isDigit
  (digits, rest.takeWhile Char.isAlpha)

/-- Embedding of `int(n)` applied to the digit group of the regex: fails on the
empty string, otherwise the decimal value. -/
def digitsToNat : List Char → Option ℕ
  | [] => none
  | ds => some (ds.foldl (fun acc c => 10 * acc + (c.toNat - 48)) 0)

/-- The `if/elif/else` dispatch on the unit (lines 51-58): rows as an exact
rational.  A zero data frequency is Python's `ZeroDivisionError`. -/
def unitRows (n : ℕ) (unit : List Char) (datafreq : ℚ) : Except ConfigError ℚ :=
  if unit = ['m', 'i', 'n'] then
    if 60 * datafreq = 0 then Except.error ConfigError.zeroDivision
    else Except.ok ((n : ℚ) / (60 * datafreq))
  else if unit = ['h'] then
    if datafreq = 0 then Except.error ConfigError.zeroDivision
    else Except.ok ((n : ℚ) / datafreq)
  else if unit = ['d'] then
    if datafreq = 0 then Except.error ConfigError.zeroDivision
    else Except.ok ((n : ℚ) * 24 / datafreq)
  else Except.error (ConfigError.unknownUnit unit)

/-- The `assert rows == int(rows)` line 60, followed by `return int(rows)`:
a rational equals its truncation exactly when its denominator is 1. -/
def intCheck (rows : ℚ) : Except ConfigError ℤ :=
  if rows.den = 1 then Except.ok rows.num
  else Except.error ConfigError.nonIntegral

/-- Embedding of `window_to_rows(window, datafreq)` (lines 41-62). -/
def window_to_rows (window : List Char) (datafreq : ℚ) : Except ConfigError ℤ :=
  match digitsToNat (parseWindow window).1 with
  | none => Except.error ConfigError.badMagnitude
  | some n =>
    match unitRows n (parseWindow window).2 datafreq with
    | Except.error e => Except.error e
    | Except.ok rows => intCheck rows

/-! ## rolling_window / rolling_mean (lines 34-38 and 65-78) -/

/-- Embedding of `np.mean(a)` on a 1-D slice. -/
def npMean (l : List ℚ) : ℚ := l.sum / (l.length : ℚ)

/-- Embedding of `rolling_window(a, rows)` on a single column: the list of the
`len(a) - rows + 1` consecutive windows of length `rows`.  When
`len(a) - rows + 1` is negative, `as_strided` rejects the negative shape
(numpy `ValueError`). -/
def rollingWindow (a : List ℚ) (rows : ℕ) : Except ConfigError (List (List ℚ)) :=
  if a.length + 1 < rows then Except.error ConfigError.valueError
  else Except.ok ((List.range (a.length + 1 - rows)).map (fun i => (a.drop i).take rows))

/-- Embedding of lines 75-78 on one column: a result of the same length as the
input, `rows - 1` leading NaNs (`none`), then the window means written into
`result[(rows - 1):]`.  For `rows = 0` the slice `result[-1:]` misaligns with
the mean output and numpy raises, modelled as `valueError`. -/
def rolling_mean_col (a : List ℚ) (rows : ℕ) : Except ConfigError (List (Option ℚ)) :=
  if rows = 0 then Except.error ConfigError.valueError
  else
    match rollingWindow a rows with
    | Except.error e => Except.error e
    | Except.ok w =>
      Except.ok (List.replicate (rows - 1) (none : Option ℚ) ++ w.map (fun win => some (npMean win)))

/-- List-comprehension / column-loop helper: the effectful map that stops at
the first raised exception, as a Python loop does. -/
def mapExcept {α β : Type} (f : α → Except ConfigError β) : List α → Except ConfigError (List β)
  | [] => Except.ok []
  | a :: as =>
    match f a with
    | Except.error e => Except.error e
    | Except.ok b =>
      match mapExcept f as with
      | Except.error e => Except.error e
      | Except.ok bs => Except.ok (b :: bs)

/-- The matrix body of `rolling_mean` once `rows` is known (lines 75-78):
columnwise rolling means over `data.T`. -/
def rolling_mean_rows (data : List (List ℚ)) (rows : ℕ) : Except ConfigError (List (List (Option ℚ))) :=
  mapExcept (fun col => rolling_mean_col col rows) data

/-- Embedding of `rolling_mean(data, window, datafreq)` (lines 65-78): resolve
the label to a row count, then average columnwise.  (A negative row count from
a negative frequency gives `toNat = 0`, which `rolling_mean_col` rejects, as
numpy rejects the negative shape.) -/
def rolling_mean (data : List (List ℚ)) (window : List Char) (datafreq : ℚ) :
    Except ConfigError (List (List (Option ℚ))) :=
  match window_to_rows window datafreq with
  | Except.error e => Except.error e
  | Except.ok rows => rolling_mean_rows data rows.toNat

/-! ## metric_complete (lines 100-105) -/

/-- Embedding of boolean-mask indexing `vec[index]`: keep the entries at the
positions where the mask is true.  In `metric_complete` the mask is true only
at positions where the entry is finite (`some`). -/
def maskSelect (v : List (Option ℚ)) (mask : List Bool) : List ℚ :=
  ((v.zip mask).filter (fun p => p.2)).filterMap (fun p => p.1)

/-- Embedding of `metric_complete(func, vec1, vec2)` (lines 100-105):
`index = np.isfinite(vec1) & np.isfinite(vec2)`; if no index is set, return
NaN (`none`); otherwise apply the metric to the masked vectors. -/
def metric_complete (f : List ℚ → List ℚ → ℚ) (vec1 vec2 : List (Option ℚ)) : Option ℚ :=
  let index := (vec1.zip vec2).map (fun p => p.1.isSome && p.2.isSome)
  if index.count true = 0 then none
  else some (f (maskSelect vec1 index) (maskSelect vec2 index))

/-! ## get_lagged_df (scripts/residuals_analysis.py, lines 34-42), one column -/

/-- Rolling mean of a single series at a window label, at the default data
frequency used by `get_lagged_df` (0.5 hours/sample): the inner call
`rolling_mean(df[[v]].values, l)` on the one-column matrix. -/
def rolling_mean_1col (series : List ℚ) (window : List Char) (datafreq : ℚ) :
    Except ConfigError (List (Option ℚ)) :=
  match window_to_rows window datafreq with
  | Except.error e => Except.error e
  | Except.ok rows => rolling_mean_col series rows.toNat

/-- Embedding of the single-variable body of `get_lagged_df` (lines 38-41):
one output column per window label, in order, labelled by the label, with the
input's row count (`index=df.index` preserves alignment). -/
def get_lagged_df (series : List ℚ) (lags : List (List Char)) :
    Except ConfigError (List (List Char × List (Option ℚ))) :=
  mapExcept (fun l =>
    match rolling_mean_1col series l (1/2) with
    | Except.error e => Except.error e
    | Except.ok col => Except.ok (l, col)) lags

/-! ## ubermodel/models.py -/

/-- Modelled from the spec: the constant `MET_VARS` is imported from the
external `pals_utils.constants` module, which is not part of this repository.
The spec calls it "the default full met-variable list"; the claims only use it
up to equality with this constant, so its exact elements are immaterial.  The
seven standard met variables named elsewhere in the sources are used. -/
def MET_VARS : List String :=
  ["SWdown", "LWdown", "Tair", "RelHum", "Qair", "Wind", "Rainf"]

/-- A Python value sitting under a `'class'` key: either a class *name* (a
string, as produced by the YAML path) or a class *object* (as in the literal
dict of the `'3km27_lag'` preset).  A Python `==` comparison of a class object
with a string is `False`, which the dispatch functions below reproduce by
comparing constructors. -/
inductive ClassRef where
  | byName (s : String)
  | byClass (s : String)
deriving DecidableEq, Repr

/-- The two scalers `get_scaler` can build. -/
inductive Scaler where
  | standardScaler
  | minMaxScaler
deriving DecidableEq, Repr

/-- A constructed clusterer object: the sklearn class it was built from and
its keyword arguments. -/
structure Clusterer where
  cls : String
  args : List (String × String)
deriving DecidableEq, Repr

/-- One element of `pipe_list` before the final model: a scaler (possibly
`None`, since `get_scaler` silently returns `None` on unknown names), a PCA
step, or a polynomial-features step. -/
inductive PipeStep where
  | scalerStep (s : Option Scaler)
  | pcaStep
  | polyStep (args : List (String × String))
deriving DecidableEq, Repr

/-- Symbolic estimator built by `models.py`: a base sklearn model, a
`ModelByCluster` wrapper (whose clusterer slot may be `None`), a
`make_pipeline` of transform steps ending in a model, the `LagWrapper` /
`MarkovWrapper` outer wrappers, the `MissingDataWrapper`, and the
`LagAverageWrapper` used by the `'5km27_lag'` preset. -/
inductive Model where
  | base (cls : String) (args : List (String × String))
  | clustered (c : Option Clusterer) (m : Model)
  | pipeline (steps : List PipeStep) (m : Model)
  | lagWrapper (params : List (String × String)) (m : Model)
  | markovWrapper (params : List (String × String)) (m : Model)
  | missingGuard (m : Model)
  | lagAverage (varLags : List (String × List String)) (m : Model)
deriving DecidableEq, Repr

/-- Embedding of `get_scaler` (lines 187-199): unknown names fall off the end
of the function and return `None`. -/
def get_scaler (scaler : String) : Option Scaler :=
  if scaler = "standard" then some Scaler.standardScaler
  else if scaler = "minmax" then some Scaler.minMaxScaler
  else none

/-- Embedding of `get_clusterer` (lines 176-184): both recognized names build
sklearn's `KMeans`; unknown names fall off the end and return `None`. -/
def get_clusterer (name : ClassRef) (kwargs : List (String × String)) : Option Clusterer :=
  if name = ClassRef.byName "KMeans" then some ⟨"KMeans", kwargs⟩
  else if name = ClassRef.byName "MiniBatchKMeans" then some ⟨"KMeans", kwargs⟩
  else none

/-- Embedding of `get_model_class` (lines 222-258): seven recognized model
class names, otherwise `raise Exception("Unknown Model class")`.  A class
object (rather than a name) compares unequal to every string and also reaches
the raise. -/
def get_model_class (class_name : ClassRef) (kwargs : List (String × String)) :
    Except ConfigError Model :=
  if class_name = ClassRef.byName "LinearRegression" then
    Except.ok (Model.base "LinearRegression" kwargs)
  else if class_name = ClassRef.byName "SGDRegressor" then
    Except.ok (Model.base "SGDRegressor" kwargs)
  else if class_name = ClassRef.byName "SVR" then
    Except.ok (Model.base "SVR" kwargs)
  else if class_name = ClassRef.byName "DecisionTreeRegressor" then
    Except.ok (Model.base "DecisionTreeRegressor" kwargs)
  else if class_name = ClassRef.byName "ExtraTreesRegressor" then
    Except.ok (Model.base "ExtraTreesRegressor" kwargs)
  else if class_name = ClassRef.byName "KNeighborsRegressor" then
    Except.ok (Model.base "KNeighborsRegressor" kwargs)
  else if class_name = ClassRef.byName "MLPRegressor" then
    Except.ok (Model.base "MLPRegressor" kwargs)
  else Except.error ConfigError.unknownModelClass

/-- The `model_dict['transforms']` sub-dictionary: the three recognized keys
(`scaler`, `pca`, `poly`) and the list of remaining unrecognized keys that
`transforms.pop(...)` would leave behind. -/
structure TransformsDict where
  scaler : Option String
  pca : Bool
  poly : Option (List (String × String))
  extra : List String
deriving DecidableEq, Repr

/-- The `model_dict['clusterregression']` sub-dictionary. -/
structure ClusterConfig where
  cls : ClassRef
  args : List (String × String)
deriving DecidableEq, Repr

/-- The recognized top-level keys of a `model_dict` (PipelineSpec).  Top-level
keys outside this set (such as the `'variable'` key of the `'3km27_lag'`
preset) are simply never read by `get_model_from_dict`, so they are not
modelled. -/
structure ModelDict where
  transforms : Option TransformsDict
  cls : ClassRef
  args : Option (List (String × String))
  clusterregression : Option ClusterConfig
  lag : Option (List (String × String))
  markov : Option (List (String × String))
  forcing_vars : Option (List String)
deriving DecidableEq, Repr

/-- The value returned by `get_model_from_dict`: the composed estimator, its
`forcing_vars` attribute, and whether the "no forcing vars" warning was
printed. -/
structure BuiltModel where
  model : Model
  forcing_vars : List String
  warned : Bool
deriving DecidableEq, Repr

/-- Embedding of the `'transforms'` block of `get_model_from_dict` (lines
116-129): append the scaler, pca and poly steps in that order, then raise if
any unrecognized key remains. -/
def transformSteps (t : TransformsDict) : Except ConfigError (List PipeStep) :=
  let steps : List PipeStep := []
  let steps := match t.scaler with
    | some s => steps ++ [PipeStep.scalerStep (get_scaler s)]
    | none => steps
  let steps := if t.pca then steps ++ [PipeStep.pcaStep] else steps
  let steps := match t.poly with
    | some a => steps ++ [PipeStep.polyStep a]
    | none => steps
  if t.extra.length > 0 then Except.error (ConfigError.unknownTransforms t.extra)
  else Except.ok steps

/-- Embedding of `get_model_from_dict` (lines 111-161): transforms, base model
(via `get_model_class`), optional `ModelByCluster` wrap, `make_pipeline`, then
`lag` or (`elif`) `markov` outer wrapper, then the `forcing_vars` attribute
with the `MET_VARS` default and a printed warning when the key is absent. -/
def get_model_from_dict (d : ModelDict) : Except ConfigError BuiltModel :=
  match (match d.transforms with
         | some t => transformSteps t
         | none => Except.ok []) with
  | Except.error e => Except.error e
  | Except.ok pipeSteps =>
    match (match d.args with
           | some a => get_model_class d.cls a
           | none => get_model_class d.cls []) with
    | Except.error e => Except.error e
    | Except.ok model =>
      let model := match d.clusterregression with
        | some c => Model.clustered (get_clusterer c.cls c.args) model
        | none => model
      let pipe := Model.pipeline pipeSteps model
      let pipe := match d.lag with
        | some params => Model.lagWrapper params pipe
        | none =>
          match d.markov with
          | some params => Model.markovWrapper params pipe
          | none => pipe
      match d.forcing_vars with
      | some fv => Except.ok ⟨pipe, fv, false⟩
      | none => Except.ok ⟨pipe, MET_VARS, true⟩

/-- A named model as returned by `get_model_from_def`: the estimator plus the
`forcing_vars` attribute the preset attaches. -/
structure NamedModel where
  model : Model
  forcing_vars : List String
deriving DecidableEq, Repr

/-- The literal `model_dict` of the `'3km27_lag'` preset (lines 70-81).  Its
`'class'` values are the imported class objects `LinearRegression` and
`MiniBatchKMeans`, not strings. -/
def dict_3km27_lag : ModelDict where
  transforms := none
  cls := ClassRef.byClass "LinearRegression"
  args := none
  clusterregression := some ⟨ClassRef.byClass "MiniBatchKMeans", [("n_clusters", "27")]⟩
  lag := some [("periods", "1"), ("freq", "D")]
  markov := none
  forcing_vars := none

/-- The `var_lags` ordered dict of the `'5km27_lag'` preset (lines 85-87). -/
def var_lags_5km : List (String × List String) :=
  [("SWdown", ["cur", "2d", "7d"]), ("Tair", ["cur", "2d", "7d"]),
   ("RelHum", ["cur", "2d", "7d"]), ("Wind", ["cur", "2d", "7d"]),
   ("Rainf", ["cur", "2d", "7d", "30d", "90d"])]

/-- Embedding of `get_model_from_def` (lines 51-96).  The Python body is a
sequence of *independent* `if` statements assigning `model`, where the
`else: raise Exception("unknown model")` is attached only to the *last*
`if name == '5km27_lag'`; `return model` follows.  So the raise fires for
every name other than `'5km27_lag'`, even after an earlier branch matched and
built its model.  The `'3km27_lag'` branch calls `get_model_from_dict` on
`dict_3km27_lag`, whose exception (its `'class'` entry is a class object, not
a recognized name string) propagates out first for that name. -/
def get_model_from_def (name : String) : Except ConfigError NamedModel :=
  let model : Option NamedModel := none
  let model := if name = "1lin" then
      some ⟨Model.missingGuard (Model.base "LinearRegression" []), ["SWdown"]⟩
    else model
  let model := if name = "3km27" then
      some ⟨Model.missingGuard (Model.clustered
              (some ⟨"MiniBatchKMeans", [("n_clusters", "27")]⟩)
              (Model.base "LinearRegression" [])),
            ["SWdown", "Tair", "RelHum"]⟩
    else model
  let model := if name = "3km233" then
      some ⟨Model.missingGuard (Model.clustered
              (some ⟨"MiniBatchKMeans", [("n_clusters", "233")]⟩)
              (Model.base "LinearRegression" [])),
            ["SWdown", "Tair", "RelHum"]⟩
    else model
  match (if name = "3km27_lag" then
           match get_model_from_dict dict_3km27_lag with
           | Except.error e => Except.error e
           | Except.ok bm =>
             Except.ok (some ⟨Model.missingGuard bm.model, ["SWdown", "Tair", "RelHum"]⟩)
         else Except.ok model) with
  | Except.error e => Except.error e
  | Except.ok model =>
    let model := if name = "5km27_lag" then
        some ⟨Model.lagAverage var_lags_5km (Model.missingGuard (Model.clustered
                (some ⟨"MiniBatchKMeans", [("n_clusters", "27")]⟩)
                (Model.base "LinearRegression" []))),
              ["SWdown", "Tair", "RelHum", "Wind", "Rainf"]⟩
      else model
    if name = "5km27_lag" then
      match model with
      | some m => Except.ok m
      | none => Except.error ConfigError.unknownModel
    else Except.error ConfigError.unknownModel

/-! ## Helper lemmas: window-label parsing -/

theorem takeWhile_digits_append (ds us : List Char)
    (hds : ∀ c ∈ ds, c.isDigit = true) (hus : us.takeWhile Char.isDigit = []) :
    (ds ++ us).takeWhile Char.isDigit = ds := by
  induction ds with
  | nil => simpa using hus
  | cons d ds ih =>
    have hd : d.isDigit = true := hds d (by simp)
    simp only [List.cons_append, List.takeWhile_cons, hd, if_true]
    rw [ih (fun c hc => hds c (by simp [hc]))]

theorem dropWhile_eq_self_of_takeWhile_nil (p : Char → Bool) (l : List Char)
    (h : l.takeWhile p = []) : l.dropWhile p = l := by
  cases l with
  | nil => rfl
  | cons a l =>
    by_cases hp : p a
    · simp [List.takeWhile_cons, hp] at h
    · simp [List.dropWhile_cons, hp]

theorem dropWhile_digits_append (ds us : List Char)
    (hds : ∀ c ∈ ds, c.isDigit = true) (hus : us.takeWhile Char.isDigit = []) :
    (ds ++ us).dropWhile Char.isDigit = us := by
  induction ds with
  | nil => simpa using dropWhile_eq_self_of_takeWhile_nil _ _ hus
  | cons d ds ih =>
    have hd : d.isDigit = true := hds d (by simp)
    simp only [List.cons_append, List.dropWhile_cons, hd, if_true]
    exact ih (fun c hc => hds c (by simp [hc]))

/-- On a label that is literally digits followed by a unit whose characters
are letters only, the regex embedding splits it back into those two groups. -/
theorem parseWindow_append (ds us : List Char)
    (hds : ∀ c ∈ ds, c.isDigit = true) (hus : us.takeWhile Char.isDigit = [])
    (hta : us.takeWhile Char.isAlpha = us) :
    parseWindow (ds ++ us) = (ds, us) := by
  unfold parseWindow
  rw [takeWhile_digits_append ds us hds hus, dropWhile_digits_append ds us hds hus]
  show (ds, us.takeWhile Char.isAlpha) = (ds, us)
  rw [hta]

/-- A rational with denominator 1 is an integer cast; contrapositive used for
the non-integrality failures. -/
theorem den_ne_one_of_not_int (q : ℚ) (h : ∀ z : ℤ, q ≠ (z : ℚ)) : q.den ≠ 1 := by
  intro hd
  exact h q.num (by rw [← Rat.num_div_den q, hd]; simp)

/-- Success of `window_to_rows` on a minutes label, given that the row formula
is exactly an integer. -/
theorem window_to_rows_ok_min (ds : List Char) (n : ℕ) (f : ℚ) (k : ℤ)
    (hds : ∀ c ∈ ds, c.isDigit = true) (hn : digitsToNat ds = some n) (hf : f ≠ 0)
    (hk : (n : ℚ) / (60 * f) = (k : ℚ)) :
    window_to_rows (ds ++ ['m', 'i', 'n']) f = Except.ok k := by
  unfold window_to_rows
  rw [parseWindow_append ds ['m', 'i', 'n'] hds (by decide) (by decide)]
  simp only [hn]
  unfold unitRows
  rw [if_pos rfl, if_neg (mul_ne_zero (by norm_num) hf), hk]
  show (if ((k : ℚ)).den = 1 then Except.ok ((k : ℚ)).num else Except.error ConfigError.nonIntegral) = Except.ok k
  rw [if_pos (Rat.den_intCast k), Rat.num_intCast]

/-- Success of `window_to_rows` on an hours label. -/
theorem window_to_rows_ok_h (ds : List Char) (n : ℕ) (f : ℚ) (k : ℤ)
    (hds : ∀ c ∈ ds, c.isDigit = true) (hn : digitsToNat ds = some n) (hf : f ≠ 0)
    (hk : (n : ℚ) / f = (k : ℚ)) :
    window_to_rows (ds ++ ['h']) f = Except.ok k := by
  unfold window_to_rows
  rw [parseWindow_append ds ['h'] hds (by decide) (by decide)]
  simp only [hn]
  unfold unitRows
  rw [if_neg (by decide), if_pos rfl, if_neg hf, hk]
  show (if ((k : ℚ)).den = 1 then Except.ok ((k : ℚ)).num else Except.error ConfigError.nonIntegral) = Except.ok k
  rw [if_pos (Rat.den_intCast k), Rat.num_intCast]

/-- Success of `window_to_rows` on a days label. -/
theorem window_to_rows_ok_d (ds : List Char) (n : ℕ) (f : ℚ) (k : ℤ)
    (hds : ∀ c ∈ ds, c.isDigit = true) (hn : digitsToNat ds = some n) (hf : f ≠ 0)
    (hk : (n : ℚ) * 24 / f = (k : ℚ)) :
    window_to_rows (ds ++ ['d']) f = Except.ok k := by
  unfold window_to_rows
  rw [parseWindow_append ds ['d'] hds (by decide) (by decide)]
  simp only [hn]
  unfold unitRows
  rw [if_neg (by decide), if_neg (by decide), if_pos rfl, if_neg hf, hk]
  show (if ((k : ℚ)).den = 1 then Except.ok ((k : ℚ)).num else Except.error ConfigError.nonIntegral) = Except.ok k
  rw [if_pos (Rat.den_intCast k), Rat.num_intCast]

/-- Failure of `window_to_rows` whenever the parsed unit token is none of the
three recognized ones (either the magnitude parse or the unit dispatch
raises). -/
theorem window_to_rows_error_of_unknown_unit (label : List Char) (f : ℚ)
    (h1 : (parseWindow label).2 ≠ ['m', 'i', 'n'])
    (h2 : (parseWindow label).2 ≠ ['h'])
    (h3 : (parseWindow label).2 ≠ ['d']) :
    ∃ e, window_to_rows label f = Except.error e := by
  cases hm : digitsToNat (parseWindow label).1 with
  | none => exact ⟨ConfigError.badMagnitude, by unfold window_to_rows; rw [hm]⟩
  | some n =>
    have hu : unitRows n (parseWindow label).2 f =
        Except.error (ConfigError.unknownUnit (parseWindow label).2) := by
      unfold unitRows
      rw [if_neg h1, if_neg h2, if_neg h3]
    refine ⟨ConfigError.unknownUnit (parseWindow label).2, ?_⟩
    unfold window_to_rows
    rw [hm]
    show (match unitRows n (parseWindow label).2 f with
          | Except.error e => Except.error e
          | Except.ok rows => intCheck rows) = _
    rw [hu]

/-- Failure of `window_to_rows` whenever the unit is recognized but the exact
rational row count is not an integer (via the integrality assert), covering
also a zero frequency (Python's `ZeroDivisionError`). -/
theorem window_to_rows_error_of_not_int (label : List Char) (f : ℚ) (n : ℕ)
    (hn : digitsToNat (parseWindow label).1 = some n)
    (hcase : ((parseWindow label).2 = ['m', 'i', 'n'] ∧ ∀ z : ℤ, (n : ℚ) / (60 * f) ≠ (z : ℚ)) ∨
             ((parseWindow label).2 = ['h'] ∧ ∀ z : ℤ, (n : ℚ) / f ≠ (z : ℚ)) ∨
             ((parseWindow label).2 = ['d'] ∧ ∀ z : ℤ, (n : ℚ) * 24 / f ≠ (z : ℚ))) :
    ∃ e, window_to_rows label f = Except.error e := by
  have hred : ∀ r : Except ConfigError ℚ, unitRows n (parseWindow label).2 f = r →
      window_to_rows label f = (match r with
        | Except.error e => Except.error e
        | Except.ok rows => intCheck rows) := by
    intro r hr
    unfold window_to_rows
    rw [hn]
    show (match unitRows n (parseWindow label).2 f with
          | Except.error e => Except.error e
          | Except.ok rows => intCheck rows) = _
    rw [hr]
  rcases hcase with ⟨hu, hni⟩ | ⟨hu, hni⟩ | ⟨hu, hni⟩
  · by_cases hz : 60 * f = 0
    · refine ⟨ConfigError.zeroDivision, hred (Except.error ConfigError.zeroDivision) ?_⟩
      unfold unitRows
      rw [hu, if_pos rfl, if_pos hz]
    · refine ⟨ConfigError.nonIntegral, ?_⟩
      rw [hred (Except.ok ((n : ℚ) / (60 * f)))
        (by unfold unitRows; rw [hu, if_pos rfl, if_neg hz])]
      show intCheck ((n : ℚ) / (60 * f)) = _
      unfold intCheck
      rw [if_neg (den_ne_one_of_not_int _ hni)]
  · by_cases hz : f = 0
    · refine ⟨ConfigError.zeroDivision, hred (Except.error ConfigError.zeroDivision) ?_⟩
      unfold unitRows
      rw [hu, if_neg (by decide), if_pos rfl, if_pos hz]
    · refine ⟨ConfigError.nonIntegral, ?_⟩
      rw [hred (Except.ok ((n : ℚ) / f))
        (by unfold unitRows; rw [hu, if_neg (by decide), if_pos rfl, if_neg hz])]
      show intCheck ((n : ℚ) / f) = _
      unfold intCheck
      rw [if_neg (den_ne_one_of_not_int _ hni)]
  · by_cases hz : f = 0
    · refine ⟨ConfigError.zeroDivision, hred (Except.error ConfigError.zeroDivision) ?_⟩
      unfold unitRows
      rw [hu, if_neg (by decide), if_neg (by decide), if_pos rfl, if_pos hz]
    · refine ⟨ConfigError.nonIntegral, ?_⟩
      rw [hred (Except.ok ((n : ℚ) * 24 / f))
        (by unfold unitRows; rw [hu, if_neg (by decide), if_neg (by decide), if_pos rfl, if_neg hz])]
      show intCheck ((n : ℚ) * 24 / f) = _
      unfold intCheck
      rw [if_neg (den_ne_one_of_not_int _ hni)]

/-! ## Helper lemmas: rolling mean -/

/-- Specification-side description of one rolling-mean column: entry `i` is
missing for `i ≤ w - 2` and the exact mean of the `w` input entries ending at
`i` otherwise. -/
def expectedCol (col : List ℚ) (w : ℕ) : List (Option ℚ) :=
  (List.range col.length).map (fun i =>
    if i + 1 < w then none
    else some ((∑ j ∈ Finset.range w, col.getD (i + 1 - w + j) 0) / (w : ℚ)))

theorem expectedCol_length (col : List ℚ) (w : ℕ) : (expectedCol col w).length = col.length := by
  simp [expectedCol]

/-- Sum of a contiguous slice, written as an indexed sum. -/
theorem sum_drop_take (a : List ℚ) (s w : ℕ) (h : s + w ≤ a.length) :
    ((a.drop s).take w).sum = ∑ j ∈ Finset.range w, a.getD (s + j) 0 := by
  induction w generalizing s with
  | zero => simp
  | succ w ih =>
    have hs : s < a.length := by omega
    rw [List.drop_eq_getElem_cons hs, List.take_succ_cons, List.sum_cons,
      ih (s + 1) (by omega), Finset.sum_range_succ']
    have hidx : ∀ j : ℕ, s + 1 + j = s + (j + 1) := by omega
    have hget : a.getD (s + 0) 0 = a[s] := by
      rw [Nat.add_zero]
      exact List.getD_eq_getElem a 0 hs
    simp only [hidx, hget]
    ring

/-- The single-column rolling mean, for a window that fits, equals its
specification-side description. -/
theorem rolling_mean_col_eq (a : List ℚ) (w : ℕ) (h1 : 1 ≤ w) (h2 : w ≤ a.length + 1) :
    rolling_mean_col a w = Except.ok (expectedCol a w) := by
  unfold rolling_mean_col
  rw [if_neg (by omega)]
  unfold rollingWindow
  rw [if_neg (by omega)]
  show Except.ok _ = _
  congr 1
  apply List.ext_getElem
  · simp [expectedCol]
    omega
  · intro i hL hR
    have hn : i < a.length := by
      simpa [expectedCol] using hR
    simp only [expectedCol, List.getElem_map, List.getElem_range]
    by_cases hc : i + 1 < w
    · rw [if_pos hc]
      have hrep : i < (List.replicate (w - 1) (none : Option ℚ)).length := by
        simp
        omega
      rw [List.getElem_append_left hrep, List.getElem_replicate]
    · rw [if_neg hc]
      have hrep : (List.replicate (w - 1) (none : Option ℚ)).length ≤ i := by
        simp
        omega
      rw [List.getElem_append_right hrep]
      have hi2 : i - (List.replicate (w - 1) (none : Option ℚ)).length <
          ((List.range (a.length + 1 - w)).map
            (fun i => (a.drop i).take w)).length := by
        simp
        omega
      simp only [List.getElem_map, List.getElem_range, List.length_replicate]
      have hs : i - (w - 1) = i + 1 - w := by omega
      rw [hs]
      have hfit : (i + 1 - w) + w ≤ a.length := by omega
      congr 1
      unfold npMean
      rw [sum_drop_take a (i + 1 - w) w hfit]
      have hlen : ((a.drop (i + 1 - w)).take w).length = w := by
        rw [List.length_take, List.length_drop]
        omega
      rw [hlen]

/-- The effectful map succeeds pointwise exactly as the pure map, when every
element succeeds. -/
theorem mapExcept_ok {α β : Type} (f : α → Except ConfigError β) (g : α → β)
    (l : List α) (h : ∀ a ∈ l, f a = Except.ok (g a)) :
    mapExcept f l = Except.ok (l.map g) := by
  induction l with
  | nil => rfl
  | cons a as ih =>
    have ha : f a = Except.ok (g a) := h a (by simp)
    have has : mapExcept f as = Except.ok (as.map g) := ih (fun x hx => h x (by simp [hx]))
    unfold mapExcept
    rw [ha, has, List.map_cons]

/-! ## Helper lemmas: metric_complete -/

/-- Specification-side description of the "index subset where both vectors are
finite": the aligned pairs of finite values. -/
def finitePairs (v1 v2 : List (Option ℚ)) : List (ℚ × ℚ) :=
  (v1.zip v2).filterMap (fun p =>
    match p.1, p.2 with
    | some a, some b => some (a, b)
    | _, _ => none)

theorem count_mask_zero_iff (v1 v2 : List (Option ℚ)) :
    ((v1.zip v2).map (fun p => p.1.isSome && p.2.isSome)).count true = 0 ↔
      finitePairs v1 v2 = [] := by
  induction v1 generalizing v2 with
  | nil => simp [finitePairs]
  | cons a v1 ih =>
    cases v2 with
    | nil => simp [finitePairs]
    | cons b v2 =>
      cases a <;> cases b <;>
        simp [finitePairs, List.count_cons, ih v2, List.filterMap_cons]

theorem maskSelect_fst (v1 v2 : List (Option ℚ)) :
    maskSelect v1 ((v1.zip v2).map (fun p => p.1.isSome && p.2.isSome)) =
      (finitePairs v1 v2).map Prod.fst := by
  induction v1 generalizing v2 with
  | nil => simp [finitePairs, maskSelect]
  | cons a v1 ih =>
    cases v2 with
    | nil => simp [finitePairs, maskSelect]
    | cons b v2 =>
      cases a <;> cases b <;>
        simp [finitePairs, maskSelect, List.filterMap_cons, List.filter_cons] at ih ⊢ <;>
        simpa [finitePairs, maskSelect] using ih v2

theorem maskSelect_snd (v1 v2 : List (Option ℚ)) :
    maskSelect v2 ((v1.zip v2).map (fun p => p.1.isSome && p.2.isSome)) =
      (finitePairs v1 v2).map Prod.snd := by
  induction v1 generalizing v2 with
  | nil => simp [finitePairs, maskSelect]
  | cons a v1 ih =>
    cases v2 with
    | nil => simp [finitePairs, maskSelect]
    | cons b v2 =>
      cases a <;> cases b <;>
        simp [finitePairs, maskSelect, List.filterMap_cons, List.filter_cons] at ih ⊢ <;>
        simpa [finitePairs, maskSelect] using ih v2

/-- Closed form of `metric_complete` in terms of the finite-pair subset. -/
theorem metric_complete_eq (f : List ℚ → List ℚ → ℚ) (v1 v2 : List (Option ℚ)) :
    metric_complete f v1 v2 =
      if finitePairs v1 v2 = [] then none
      else some (f ((finitePairs v1 v2).map Prod.fst) ((finitePairs v1 v2).map Prod.snd)) := by
  show (if ((v1.zip v2).map (fun p => p.1.isSome && p.2.isSome)).count true = 0
        then none
        else some (f (maskSelect v1 ((v1.zip v2).map (fun p => p.1.isSome && p.2.isSome)))
                     (maskSelect v2 ((v1.zip v2).map (fun p => p.1.isSome && p.2.isSome))))) = _
  rw [maskSelect_fst, maskSelect_snd]
  by_cases hp : finitePairs v1 v2 = []
  · rw [if_pos ((count_mask_zero_iff v1 v2).mpr hp), if_pos hp]
  · rw [if_neg (fun hc => hp ((count_mask_zero_iff v1 v2).mp hc)), if_neg hp]

/-! ## Claim theorems: lag_average_assessment.py and residuals_analysis.py -/

/-- Claim C1 (corrected), counterexample: with a single one-entry column and
window size 3 (which exceeds the row count plus one), `rolling_mean` does not
return a matrix of the input's shape — the strided-window construction fails
with numpy's ValueError — refuting the claim's unrestricted quantification
over window sizes `w ≥ 1`. -/
theorem rolling_mean_rows_counterexample :
    rolling_mean_rows [[(1 : ℚ)]] 3 = Except.error ConfigError.valueError := rfl

/-- Claim C1 (amended): for every rectangular numeric matrix (given as its
columns, each of length `n`) and every window size `w` with `1 ≤ w ≤ n + 1`,
`rolling_mean` returns a matrix of the same shape in which rows `0..w-2` of
every column are missing and row `i ≥ w-1` is the arithmetic mean of input
rows `[i-w+1, i]` of that column (amendment: the bound `w ≤ n + 1`, forced by
the counterexample — larger windows raise instead of returning a matrix). -/
theorem rolling_mean_rows_amended (data : List (List ℚ)) (n w : ℕ)
    (hrect : ∀ col ∈ data, col.length = n) (hw1 : 1 ≤ w) (hwn : w ≤ n + 1) :
    rolling_mean_rows data w = Except.ok (data.map (fun col => expectedCol col w)) ∧
    (data.map (fun col => expectedCol col w)).length = data.length ∧
    ∀ oc ∈ data.map (fun col => expectedCol col w), oc.length = n := by
  refine ⟨?_, by simp, ?_⟩
  · exact mapExcept_ok _ _ data (fun col hc =>
      rolling_mean_col_eq col w hw1 (by rw [hrect col hc]; omega))
  · intro oc hoc
    rcases List.mem_map.mp hoc with ⟨col, hcol, rfl⟩
    rw [expectedCol_length, hrect col hcol]

/-- Witness for C1's amended theorem at the single column `[1, 2, 3]` with
window 2. -/
theorem rolling_mean_rows_amended_witness :
    (∀ col ∈ [[(1 : ℚ), 2, 3]], col.length = 3) ∧ 1 ≤ 2 ∧ 2 ≤ 3 + 1 ∧
    (rolling_mean_rows [[(1 : ℚ), 2, 3]] 2 =
        Except.ok ([[(1 : ℚ), 2, 3]].map (fun col => expectedCol col 2)) ∧
      ([[(1 : ℚ), 2, 3]].map (fun col => expectedCol col 2)).length = [[(1 : ℚ), 2, 3]].length ∧
      ∀ oc ∈ [[(1 : ℚ), 2, 3]].map (fun col => expectedCol col 2), oc.length = 3) := by
  have hrect : ∀ col ∈ [[(1 : ℚ), 2, 3]], col.length = 3 := by
    intro col hc
    rw [List.mem_singleton] at hc
    subst hc
    rfl
  exact ⟨hrect, by norm_num, by norm_num,
    rolling_mean_rows_amended [[(1 : ℚ), 2, 3]] 3 2 hrect (by norm_num) (by norm_num)⟩

/-- Claim C2: for a window label of the form digits then a unit in
`{min, h, d}`, and a nonzero sampling frequency `f` (hours/sample), whenever
the row formula — magnitude/(60 f) for minutes, magnitude/f for hours,
magnitude·24/f for days — is exactly the integer `k`, `window_to_rows`
returns `k`. -/
theorem window_to_rows_returns_formula (ds : List Char) (n : ℕ) (f : ℚ) (k : ℤ)
    (hds : ∀ c ∈ ds, c.isDigit = true) (hn : digitsToNat ds = some n) (hf : f ≠ 0) :
    (((n : ℚ) / (60 * f) = (k : ℚ)) → window_to_rows (ds ++ ['m', 'i', 'n']) f = Except.ok k) ∧
    (((n : ℚ) / f = (k : ℚ)) → window_to_rows (ds ++ ['h']) f = Except.ok k) ∧
    (((n : ℚ) * 24 / f = (k : ℚ)) → window_to_rows (ds ++ ['d']) f = Except.ok k) :=
  ⟨fun hk => window_to_rows_ok_min ds n f k hds hn hf hk,
   fun hk => window_to_rows_ok_h ds n f k hds hn hf hk,
   fun hk => window_to_rows_ok_d ds n f k hds hn hf hk⟩

/-- Witness for C2: the label `"3h"` at frequency 0.5 returns 6 rows. -/
theorem window_to_rows_returns_formula_witness :
    (∀ c ∈ ['3'], c.isDigit = true) ∧ digitsToNat ['3'] = some 3 ∧ ((1/2 : ℚ) ≠ 0) ∧
    ((3 : ℚ) / (1/2 : ℚ) = ((6 : ℤ) : ℚ)) ∧
    window_to_rows (['3'] ++ ['h']) (1/2 : ℚ) = Except.ok 6 :=
  ⟨by decide, rfl, by norm_num, by norm_num,
   (window_to_rows_returns_formula ['3'] 3 (1/2) 6 (by decide) rfl (by norm_num)).2.1
     (by norm_num)⟩

/-- Claim C3: `window_to_rows` fails (with the spec's `ConfigError` taxonomy,
covering the code's bare-string raise and integrality assert) on every label
whose parsed unit token is not one of `min`/`h`/`d`, and on every label whose
exact rational row count at the given frequency is not an integer. -/
theorem window_to_rows_error_cases :
    (∀ (label : List Char) (f : ℚ),
       (parseWindow label).2 ≠ ['m', 'i', 'n'] → (parseWindow label).2 ≠ ['h'] →
       (parseWindow label).2 ≠ ['d'] →
       ∃ e, window_to_rows label f = Except.error e) ∧
    (∀ (label : List Char) (f : ℚ) (n : ℕ),
       digitsToNat (parseWindow label).1 = some n →
       (((parseWindow label).2 = ['m', 'i', 'n'] ∧ ∀ z : ℤ, (n : ℚ) / (60 * f) ≠ (z : ℚ)) ∨
        ((parseWindow label).2 = ['h'] ∧ ∀ z : ℤ, (n : ℚ) / f ≠ (z : ℚ)) ∨
        ((parseWindow label).2 = ['d'] ∧ ∀ z : ℤ, (n : ℚ) * 24 / f ≠ (z : ℚ))) →
       ∃ e, window_to_rows label f = Except.error e) :=
  ⟨window_to_rows_error_of_unknown_unit, window_to_rows_error_of_not_int⟩

/-- Witness for C3: the label `"45min"` at frequency 0.5 (45/30 = 1.5,
non-integral) fails. -/
theorem window_to_rows_error_cases_witness :
    (digitsToNat (parseWindow ['4', '5', 'm', 'i', 'n']).1 = some 45) ∧
    ((parseWindow ['4', '5', 'm', 'i', 'n']).2 = ['m', 'i', 'n']) ∧
    (∀ z : ℤ, (45 : ℚ) / (60 * (1/2 : ℚ)) ≠ (z : ℚ)) ∧
    (∃ e, window_to_rows ['4', '5', 'm', 'i', 'n'] (1/2 : ℚ) = Except.error e) := by
  have hz : ∀ z : ℤ, (45 : ℚ) / (60 * (1/2 : ℚ)) ≠ (z : ℚ) := by
    intro z h
    have h30 : (60 * (1/2 : ℚ)) = 30 := by norm_num
    rw [h30, div_eq_iff (by norm_num : (30 : ℚ) ≠ 0)] at h
    have h3 : (45 : ℤ) = z * 30 := by exact_mod_cast h
    omega
  exact ⟨rfl, rfl, hz,
    window_to_rows_error_cases.2 ['4', '5', 'm', 'i', 'n'] (1/2) 45 rfl (Or.inl ⟨rfl, hz⟩)⟩

/-- Claim C4: `metric_complete` applies the metric exactly to the index subset
where both equal-length vectors are finite, and returns the missing value
`none` (never an error — the function is total) precisely when that subset is
empty. -/
theorem metric_complete_finite_subset (f : List ℚ → List ℚ → ℚ) (v1 v2 : List (Option ℚ))
    (_hlen : v1.length = v2.length) :
    (metric_complete f v1 v2 = none ↔ finitePairs v1 v2 = []) ∧
    (finitePairs v1 v2 ≠ [] →
      metric_complete f v1 v2 =
        some (f ((finitePairs v1 v2).map Prod.fst) ((finitePairs v1 v2).map Prod.snd))) := by
  constructor
  · rw [metric_complete_eq]
    by_cases hp : finitePairs v1 v2 = [] <;> simp [hp]
  · intro hne
    rw [metric_complete_eq, if_neg hne]

/-- Witness for C4, on one vector pair with an empty overlap and one with a
non-empty overlap. -/
theorem metric_complete_finite_subset_witness :
    ([some (1 : ℚ), none].length = [none, some (2 : ℚ)].length ∧
      metric_complete (fun xs ys => xs.sum + ys.sum) [some (1 : ℚ), none] [none, some 2] = none) ∧
    ([some (1 : ℚ), none, some 3].length = [some (2 : ℚ), some 5, some 4].length ∧
      finitePairs [some (1 : ℚ), none, some 3] [some (2 : ℚ), some 5, some 4] ≠ [] ∧
      metric_complete (fun xs ys => xs.sum + ys.sum)
          [some (1 : ℚ), none, some 3] [some (2 : ℚ), some 5, some 4] =
        some ((fun xs ys => xs.sum + ys.sum)
          ((finitePairs [some (1 : ℚ), none, some 3] [some (2 : ℚ), some 5, some 4]).map Prod.fst)
          ((finitePairs [some (1 : ℚ), none, some 3] [some (2 : ℚ), some 5, some 4]).map Prod.snd))) := by
  constructor
  · exact ⟨rfl,
      (metric_complete_finite_subset (fun xs ys => xs.sum + ys.sum)
        [some (1 : ℚ), none] [none, some 2] rfl).1.mpr rfl⟩
  · refine ⟨rfl, ?_, ?_⟩
    · intro h
      simp [finitePairs, List.filterMap_cons] at h
    · exact (metric_complete_finite_subset (fun xs ys => xs.sum + ys.sum)
        [some (1 : ℚ), none, some 3] [some (2 : ℚ), some 5, some 4] rfl).2
        (by intro h; simp [finitePairs, List.filterMap_cons] at h)

/-- Claim C8: for every input series and ordered list of window labels that
resolve (at the 0.5 hours/sample frequency `get_lagged_df` uses) to row
counts fitting the series, the lag feature builder returns exactly one column
per label, in the given order, labelled by the label, each with the input's
row count (so row `i` of every column aligns with input row `i` — no
resampling, no row drops), with values equal to the rolling mean column. -/
theorem get_lagged_df_columns (series : List ℚ) (lags : List (List Char)) (R : List Char → ℤ)
    (h : ∀ l ∈ lags, window_to_rows l (1/2) = Except.ok (R l) ∧
      1 ≤ (R l).toNat ∧ (R l).toNat ≤ series.length + 1) :
    get_lagged_df series lags =
      Except.ok (lags.map (fun l => (l, expectedCol series (R l).toNat))) ∧
    (lags.map (fun l => (l, expectedCol series (R l).toNat))).map Prod.fst = lags ∧
    ∀ p ∈ lags.map (fun l => (l, expectedCol series (R l).toNat)),
      p.2.length = series.length := by
  have hcomp : (Prod.fst ∘ fun l : List Char => (l, expectedCol series (R l).toNat)) = id := rfl
  refine ⟨?_, by rw [List.map_map, hcomp, List.map_id], ?_⟩
  · apply mapExcept_ok
    intro l hl
    rcases h l hl with ⟨hw, hr1, hr2⟩
    have hcol : rolling_mean_1col series l (1/2) = Except.ok (expectedCol series (R l).toNat) := by
      unfold rolling_mean_1col
      rw [hw]
      exact rolling_mean_col_eq series ((R l).toNat) hr1 hr2
    show (match rolling_mean_1col series l (1/2) with
          | Except.error e => Except.error e
          | Except.ok col => Except.ok (l, col)) = _
    rw [hcol]
  · intro p hp
    rcases List.mem_map.mp hp with ⟨l, hl, rfl⟩
    exact expectedCol_length series ((R l).toNat)

/-- Row-count function for the C8 witness: the labels `"1h"` and `"3h"` at
0.5 hours/sample resolve to 2 and 6 rows. -/
def wR : List Char → ℤ := fun l => if l = ['1', 'h'] then 2 else 6

/-- Witness for C8 on the series `[1, 2, 3, 4, 5]` with labels `"1h"`, `"3h"`. -/
theorem get_lagged_df_columns_witness :
    (∀ l ∈ [['1', 'h'], ['3', 'h']],
      window_to_rows l (1/2) = Except.ok (wR l) ∧
      1 ≤ (wR l).toNat ∧ (wR l).toNat ≤ [(1 : ℚ), 2, 3, 4, 5].length + 1) ∧
    (get_lagged_df [(1 : ℚ), 2, 3, 4, 5] [['1', 'h'], ['3', 'h']] =
        Except.ok ([['1', 'h'], ['3', 'h']].map
          (fun l => (l, expectedCol [(1 : ℚ), 2, 3, 4, 5] (wR l).toNat))) ∧
      ([['1', 'h'], ['3', 'h']].map
          (fun l => (l, expectedCol [(1 : ℚ), 2, 3, 4, 5] (wR l).toNat))).map Prod.fst =
        [['1', 'h'], ['3', 'h']] ∧
      ∀ p ∈ [['1', 'h'], ['3', 'h']].map
          (fun l => (l, expectedCol [(1 : ℚ), 2, 3, 4, 5] (wR l).toNat)),
        p.2.length = [(1 : ℚ), 2, 3, 4, 5].length) := by
  have h1 : window_to_rows (['1'] ++ ['h']) ((1 : ℚ)/2) = Except.ok 2 :=
    window_to_rows_ok_h ['1'] 1 (1/2) 2 (by decide) rfl (by norm_num) (by norm_num)
  have h3 : window_to_rows (['3'] ++ ['h']) ((1 : ℚ)/2) = Except.ok 6 :=
    window_to_rows_ok_h ['3'] 3 (1/2) 6 (by decide) rfl (by norm_num) (by norm_num)
  have hlags : ∀ l ∈ [['1', 'h'], ['3', 'h']],
      window_to_rows l (1/2) = Except.ok (wR l) ∧
      1 ≤ (wR l).toNat ∧ (wR l).toNat ≤ [(1 : ℚ), 2, 3, 4, 5].length + 1 := by
    intro l hl
    rcases List.mem_cons.mp hl with rfl | hl2
    · exact ⟨h1, by decide, by decide⟩
    · rcases List.mem_singleton.mp hl2 with rfl
      exact ⟨h3, by decide, by decide⟩
  exact ⟨hlags, get_lagged_df_columns [(1 : ℚ), 2, 3, 4, 5] [['1', 'h'], ['3', 'h']] wR hlags⟩

/-! ## Helper lemmas and spec-side descriptions: models.py -/

/-- Specification-side description of the transform steps of the pipeline, in
the fixed order scaler, then pca, then poly. -/
def specSteps (d : ModelDict) : List PipeStep :=
  match d.transforms with
  | none => []
  | some t =>
    (match t.scaler with
     | some s => [PipeStep.scalerStep (get_scaler s)]
     | none => []) ++
    (if t.pca then [PipeStep.pcaStep] else []) ++
    (match t.poly with
     | some a => [PipeStep.polyStep a]
     | none => [])

/-- Specification-side description of the core model: the base model, wrapped
as a cluster-conditioned model when a clusterregression config is present. -/
def specCore (d : ModelDict) (base : Model) : Model :=
  match d.clusterregression with
  | some c => Model.clustered (get_clusterer c.cls c.args) base
  | none => base

/-- Specification-side description of the outer wrapper: a lag wrapper when a
lag config is present, else a markov wrapper when a markov config is present. -/
def specWrap (d : ModelDict) (m : Model) : Model :=
  match d.lag with
  | some params => Model.lagWrapper params m
  | none =>
    match d.markov with
    | some params => Model.markovWrapper params m
    | none => m

/-- Whether a `MissingDataWrapper` occurs anywhere in a composed model. -/
def hasGuard : Model → Bool
  | Model.base _ _ => false
  | Model.clustered _ m => hasGuard m
  | Model.pipeline _ m => hasGuard m
  | Model.lagWrapper _ m => hasGuard m
  | Model.markovWrapper _ m => hasGuard m
  | Model.missingGuard _ => true
  | Model.lagAverage _ m => hasGuard m

/-- Whether a `ModelByCluster` with a `None` clusterer occurs anywhere in a
composed model. -/
def hasNoneClusterer : Model → Bool
  | Model.base _ _ => false
  | Model.clustered none _ => true
  | Model.clustered (some _) m => hasNoneClusterer m
  | Model.pipeline _ m => hasNoneClusterer m
  | Model.lagWrapper _ m => hasNoneClusterer m
  | Model.markovWrapper _ m => hasNoneClusterer m
  | Model.missingGuard m => hasNoneClusterer m
  | Model.lagAverage _ m => hasNoneClusterer m

/-- Whether a class reference is one of the seven model class names
`get_model_class` recognizes. -/
def knownModelName (c : ClassRef) : Bool :=
  match c with
  | ClassRef.byName s =>
    s == "LinearRegression" || s == "SGDRegressor" || s == "SVR" ||
    s == "DecisionTreeRegressor" || s == "ExtraTreesRegressor" ||
    s == "KNeighborsRegressor" || s == "MLPRegressor"
  | ClassRef.byClass _ => false

theorem get_model_class_base (c : ClassRef) (a : List (String × String)) (m : Model)
    (h : get_model_class c a = Except.ok m) : ∃ nm, m = Model.base nm a := by
  unfold get_model_class at h
  split_ifs at h
  all_goals exact ⟨_, (Except.ok.inj h).symm⟩

theorem get_model_class_unknown (c : ClassRef) (a : List (String × String))
    (h : knownModelName c = false) :
    get_model_class c a = Except.error ConfigError.unknownModelClass := by
  cases c with
  | byClass s => rfl
  | byName s =>
    unfold knownModelName at h
    simp only [Bool.or_eq_false_iff, beq_eq_false_iff_ne, ne_eq] at h
    obtain ⟨⟨⟨⟨⟨⟨h1, h2⟩, h3⟩, h4⟩, h5⟩, h6⟩, h7⟩ := h
    unfold get_model_class
    rw [if_neg (by simp [h1]), if_neg (by simp [h2]), if_neg (by simp [h3]),
      if_neg (by simp [h4]), if_neg (by simp [h5]), if_neg (by simp [h6]),
      if_neg (by simp [h7])]

theorem get_model_class_known (c : ClassRef) (h : knownModelName c = true) :
    ∀ a, ∃ nm, get_model_class c a = Except.ok (Model.base nm a) := by
  intro a
  cases c with
  | byClass s => cases h
  | byName s =>
    unfold knownModelName at h
    simp only [Bool.or_eq_true, beq_iff_eq] at h
    rcases h with ((((((rfl | rfl) | rfl) | rfl) | rfl) | rfl) | rfl) <;> exact ⟨_, rfl⟩

/-- Success of the transforms block: when no unrecognized key remains, the
steps come out in the fixed scaler-pca-poly order. -/
theorem transforms_block_ok (d : ModelDict) (hok : ∀ t, d.transforms = some t → t.extra = []) :
    (match d.transforms with
     | some t => transformSteps t
     | none => Except.ok ([] : List PipeStep)) = Except.ok (specSteps d) := by
  cases hd : d.transforms with
  | none => simp [specSteps, hd]
  | some t =>
    have hx : t.extra = [] := hok t hd
    show transformSteps t = Except.ok (specSteps d)
    unfold transformSteps
    rw [if_neg (by rw [hx]; simp)]
    simp only [specSteps, hd]
    cases t.scaler <;> cases hb : t.pca <;> cases t.poly <;> simp

/-- Failure of the transforms block when an unrecognized key remains. -/
theorem transforms_block_error (t : TransformsDict) (hx : t.extra ≠ []) :
    transformSteps t = Except.error (ConfigError.unknownTransforms t.extra) := by
  unfold transformSteps
  rw [if_pos (by cases he : t.extra with
    | nil => exact absurd he hx
    | cons a l => simp)]

/-- Evaluation of `get_model_from_dict` once its two fallible components are
known to succeed: the result is the spec-shaped composition with the
forcing-vars attribute attached last. -/
theorem get_model_from_dict_eval (d : ModelDict) (s : List PipeStep) (base : Model)
    (hT : (match d.transforms with
           | some t => transformSteps t
           | none => Except.ok ([] : List PipeStep)) = Except.ok s)
    (hB : (match d.args with
           | some a => get_model_class d.cls a
           | none => get_model_class d.cls []) = Except.ok base) :
    get_model_from_dict d =
      (match d.forcing_vars with
       | some fv => Except.ok ⟨specWrap d (Model.pipeline s (specCore d base)), fv, false⟩
       | none => Except.ok ⟨specWrap d (Model.pipeline s (specCore d base)), MET_VARS, true⟩) := by
  unfold get_model_from_dict
  rw [hT, hB]
  unfold specWrap specCore
  cases d.clusterregression <;> cases d.lag <;> cases d.markov <;> cases d.forcing_vars <;> rfl

/-- Full case analysis of `get_model_from_dict`: it propagates the first
error of its two fallible components and otherwise returns the spec-shaped
composition. -/
theorem get_model_from_dict_cases (d : ModelDict) :
    get_model_from_dict d =
      (match (match d.transforms with
              | some t => transformSteps t
              | none => Except.ok ([] : List PipeStep)) with
       | Except.error e => Except.error e
       | Except.ok s =>
         match (match d.args with
                | some a => get_model_class d.cls a
                | none => get_model_class d.cls []) with
         | Except.error e => Except.error e
         | Except.ok base =>
           match d.forcing_vars with
           | some fv => Except.ok ⟨specWrap d (Model.pipeline s (specCore d base)), fv, false⟩
           | none => Except.ok ⟨specWrap d (Model.pipeline s (specCore d base)), MET_VARS, true⟩) := by
  unfold get_model_from_dict
  cases hE : (match d.transforms with
              | some t => transformSteps t
              | none => Except.ok ([] : List PipeStep)) with
  | error e => rfl
  | ok s =>
    cases hB : (match d.args with
                | some a => get_model_class d.cls a
                | none => get_model_class d.cls []) with
    | error e => rfl
    | ok base =>
      unfold specWrap specCore
      cases d.clusterregression <;> cases d.lag <;> cases d.markov <;> cases d.forcing_vars <;> rfl

/-- Error propagation of the transforms block through `get_model_from_dict`. -/
theorem gmfd_transforms_error (d : ModelDict) (e : ConfigError)
    (hT : (match d.transforms with
           | some t => transformSteps t
           | none => Except.ok ([] : List PipeStep)) = Except.error e) :
    get_model_from_dict d = Except.error e := by
  rw [get_model_from_dict_cases d, hT]

/-- Error propagation of the model-class lookup through
`get_model_from_dict`. -/
theorem gmfd_class_error (d : ModelDict) (s : List PipeStep) (e : ConfigError)
    (hT : (match d.transforms with
           | some t => transformSteps t
           | none => Except.ok ([] : List PipeStep)) = Except.ok s)
    (hB : (match d.args with
           | some a => get_model_class d.cls a
           | none => get_model_class d.cls []) = Except.error e) :
    get_model_from_dict d = Except.error e := by
  rw [get_model_from_dict_cases d, hT, hB]

/-! ## Claim theorems: models.py -/

/-- Dictionary witnessing that `get_model_from_dict` applies no
`MissingDataWrapper`: a spec with a lag config and nothing else unusual. -/
def dict_no_guard : ModelDict where
  transforms := none
  cls := ClassRef.byName "LinearRegression"
  args := none
  clusterregression := none
  lag := some [("periods", "1"), ("freq", "D")]
  markov := none
  forcing_vars := some ["SWdown"]

/-- Claim C5 (corrected), counterexample: on a concrete PipelineSpec with a
lag config, the assembler returns the lag wrapper directly around the bare
pipeline — no `MissingDataWrapper` anywhere — contradicting the claim that
the composite is wrapped in a MissingDataGuard before the lag wrapper is
applied. -/
theorem get_model_from_dict_no_guard_counterexample :
    get_model_from_dict dict_no_guard =
      Except.ok ⟨Model.lagWrapper [("periods", "1"), ("freq", "D")]
        (Model.pipeline [] (Model.base "LinearRegression" [])), ["SWdown"], false⟩ ∧
    hasGuard (Model.lagWrapper [("periods", "1"), ("freq", "D")]
      (Model.pipeline [] (Model.base "LinearRegression" []))) = false :=
  ⟨rfl, rfl⟩

/-- Claim C5 (amended): every successfully assembled pipeline has the fixed
shape optional-lag-or-markov wrapper over a pipeline of (optional scaler,
then optional PCA, then optional polynomial expansion) ending in the base
model (cluster-wrapped when a clusterregression config is present) — but with
no `MissingDataWrapper` anywhere: the missing-data guard is applied only by
the preset definitions in `get_model_from_def`, outside the assembler
(amendment forced by the counterexample). -/
theorem get_model_from_dict_order (d : ModelDict) (bm : BuiltModel)
    (h : get_model_from_dict d = Except.ok bm) :
    ∃ base : Model,
      (match d.args with
       | some a => get_model_class d.cls a
       | none => get_model_class d.cls []) = Except.ok base ∧
      bm.model = specWrap d (Model.pipeline (specSteps d) (specCore d base)) ∧
      hasGuard bm.model = false := by
  rw [get_model_from_dict_cases d] at h
  split at h
  · exact Except.noConfusion h
  · rename_i s hT
    split at h
    · exact Except.noConfusion h
    · rename_i base hB
      have hok : ∀ u, d.transforms = some u → u.extra = [] := by
        intro u hu
        by_contra hne
        rw [hu] at hT
        have hT2 : transformSteps u = Except.ok s := hT
        rw [transforms_block_error u hne] at hT2
        exact Except.noConfusion hT2
      have hs : s = specSteps d := by
        have h2 := transforms_block_ok d hok
        rw [hT] at h2
        exact Except.ok.inj h2
      have hbase : ∃ nm aa, base = Model.base nm aa := by
        rcases hda : d.args with _ | a
        · rw [hda] at hB
          rcases get_model_class_base d.cls [] base hB with ⟨nm, hh⟩
          exact ⟨nm, [], hh⟩
        · rw [hda] at hB
          rcases get_model_class_base d.cls a base hB with ⟨nm, hh⟩
          exact ⟨nm, a, hh⟩
      rcases hbase with ⟨nm, aa, rfl⟩
      have hmodel : bm.model = specWrap d (Model.pipeline s (specCore d (Model.base nm aa))) := by
        split at h
        · cases h
          rfl
        · cases h
          rfl
      refine ⟨Model.base nm aa, hB, ?_, ?_⟩
      · rw [hmodel, hs]
      · rw [hmodel]
        unfold specWrap specCore
        cases d.clusterregression <;> cases d.lag <;> cases d.markov <;> simp [hasGuard]

/-- Fully featured dictionary for the C5 witness. -/
def dict_c5 : ModelDict where
  transforms := some ⟨some "standard", true, some [("degree", "2")], []⟩
  cls := ClassRef.byName "SVR"
  args := some [("C", "1")]
  clusterregression := some ⟨ClassRef.byName "KMeans", [("n_clusters", "2")]⟩
  lag := some [("periods", "1")]
  markov := none
  forcing_vars := some ["SWdown", "Tair"]

/-- The model `dict_c5` assembles to. -/
def bm_c5 : BuiltModel :=
  ⟨Model.lagWrapper [("periods", "1")]
    (Model.pipeline
      [PipeStep.scalerStep (some Scaler.standardScaler), PipeStep.pcaStep,
       PipeStep.polyStep [("degree", "2")]]
      (Model.clustered (some ⟨"KMeans", [("n_clusters", "2")]⟩)
        (Model.base "SVR" [("C", "1")]))),
   ["SWdown", "Tair"], false⟩

/-- Witness for C5's amended theorem on `dict_c5`. -/
theorem get_model_from_dict_order_witness :
    get_model_from_dict dict_c5 = Except.ok bm_c5 ∧
    ∃ base : Model,
      (match dict_c5.args with
       | some a => get_model_class dict_c5.cls a
       | none => get_model_class dict_c5.cls []) = Except.ok base ∧
      bm_c5.model = specWrap dict_c5 (Model.pipeline (specSteps dict_c5) (specCore dict_c5 base)) ∧
      hasGuard bm_c5.model = false :=
  ⟨rfl, get_model_from_dict_order dict_c5 bm_c5 rfl⟩

/-- Dictionary with an unknown transform key. -/
def dict_bad_transform : ModelDict where
  transforms := some ⟨none, false, none, ["whiten"]⟩
  cls := ClassRef.byName "LinearRegression"
  args := none
  clusterregression := none
  lag := none
  markov := none
  forcing_vars := none

/-- Dictionary with an unknown model class name. -/
def dict_bad_class : ModelDict where
  transforms := none
  cls := ClassRef.byName "RandomForestRegressor"
  args := none
  clusterregression := none
  lag := none
  markov := none
  forcing_vars := none

/-- Dictionary with an unknown clusterer name. -/
def dict_bad_clusterer : ModelDict where
  transforms := none
  cls := ClassRef.byName "LinearRegression"
  args := none
  clusterregression := some ⟨ClassRef.byName "DBSCAN", [("eps", "1")]⟩
  lag := none
  markov := none
  forcing_vars := none

/-- Claim C6 (corrected), counterexample: a PipelineSpec whose clusterer name
`DBSCAN` is unknown builds *successfully* — no ConfigError — and the built
model contains a cluster wrapper whose clusterer is `None`, exactly the
partially built / None component the claim says can never be returned. -/
theorem unknown_clusterer_counterexample :
    get_model_from_dict dict_bad_clusterer =
      Except.ok ⟨Model.pipeline []
        (Model.clustered none (Model.base "LinearRegression" [])), MET_VARS, true⟩ ∧
    hasNoneClusterer (Model.pipeline []
      (Model.clustered none (Model.base "LinearRegression" []))) = true :=
  ⟨rfl, rfl⟩

/-- Claim C6 (amended): an unknown transform key and an unknown model class
name do fail at build time with a ConfigError, but an unknown clusterer name
does not fail — the build succeeds with a `None` clusterer embedded in the
model (amendment forced by the counterexample). -/
theorem build_time_errors_amended :
    (∀ (d : ModelDict) (t : TransformsDict), d.transforms = some t → t.extra ≠ [] →
       get_model_from_dict d = Except.error (ConfigError.unknownTransforms t.extra)) ∧
    (∀ d : ModelDict, (∀ t, d.transforms = some t → t.extra = []) →
       knownModelName d.cls = false →
       get_model_from_dict d = Except.error ConfigError.unknownModelClass) ∧
    (∀ (d : ModelDict) (c : ClusterConfig), (∀ t, d.transforms = some t → t.extra = []) →
       knownModelName d.cls = true → d.clusterregression = some c →
       get_clusterer c.cls c.args = none →
       ∃ bm, get_model_from_dict d = Except.ok bm ∧ hasNoneClusterer bm.model = true) := by
  refine ⟨?_, ?_, ?_⟩
  · intro d t hd hx
    apply gmfd_transforms_error
    rw [hd]
    exact transforms_block_error t hx
  · intro d hok hunk
    apply gmfd_class_error d (specSteps d) _ (transforms_block_ok d hok)
    cases hda : d.args with
    | none => exact get_model_class_unknown d.cls [] hunk
    | some a => exact get_model_class_unknown d.cls a hunk
  · intro d c hok hkn hcr hcl
    have hBsome : ∃ base,
        (match d.args with
         | some a => get_model_class d.cls a
         | none => get_model_class d.cls []) = Except.ok base ∧
        ∃ nm aa, base = Model.base nm aa := by
      cases d.args with
      | none =>
        rcases get_model_class_known d.cls hkn [] with ⟨nm, hm⟩
        exact ⟨_, hm, nm, [], rfl⟩
      | some a =>
        rcases get_model_class_known d.cls hkn a with ⟨nm, hm⟩
        exact ⟨_, hm, nm, a, rfl⟩
    rcases hBsome with ⟨base, hB, nm, aa, rfl⟩
    rw [get_model_from_dict_eval d (specSteps d) (Model.base nm aa)
      (transforms_block_ok d hok) hB]
    have hnc : hasNoneClusterer
        (specWrap d (Model.pipeline (specSteps d) (specCore d (Model.base nm aa)))) = true := by
      have hcore : hasNoneClusterer (specCore d (Model.base nm aa)) = true := by
        unfold specCore
        rw [hcr]
        show hasNoneClusterer
          (Model.clustered (get_clusterer c.cls c.args) (Model.base nm aa)) = true
        rw [hcl]
        rfl
      unfold specWrap
      cases d.lag <;> cases d.markov <;> simp [hasNoneClusterer, hcore]
    cases d.forcing_vars <;> exact ⟨_, rfl, hnc⟩

/-- Witness for C6's amended theorem: the three parts applied to
`dict_bad_transform`, `dict_bad_class` and `dict_bad_clusterer`. -/
theorem build_time_errors_amended_witness :
    (get_model_from_dict dict_bad_transform =
      Except.error (ConfigError.unknownTransforms ["whiten"])) ∧
    (get_model_from_dict dict_bad_class = Except.error ConfigError.unknownModelClass) ∧
    (∃ bm, get_model_from_dict dict_bad_clusterer = Except.ok bm ∧
      hasNoneClusterer bm.model = true) :=
  ⟨build_time_errors_amended.1 dict_bad_transform ⟨none, false, none, ["whiten"]⟩ rfl
     (by simp),
   build_time_errors_amended.2.1 dict_bad_class
     (fun t ht => Option.noConfusion ht) rfl,
   build_time_errors_amended.2.2 dict_bad_clusterer ⟨ClassRef.byName "DBSCAN", [("eps", "1")]⟩
     (fun t ht => Option.noConfusion ht) rfl rfl rfl⟩

theorem gmfd_error_of_not_special (name : String)
    (h3 : name ≠ "3km27_lag") (h5 : name ≠ "5km27_lag") :
    get_model_from_def name = Except.error ConfigError.unknownModel := by
  simp [get_model_from_def, h3, h5]

/-- Claim C7 (corrected), counterexample: the preset name `'1lin'`, which
*does* match the first branch and builds its model, nevertheless hits the
trailing `else: raise` (attached only to the last `if`) and fails with
"unknown model"; and a name matching no branch hits the same raise.  So no
name "silently falls through without triggering the intended failure". -/
theorem get_model_from_def_counterexample :
    get_model_from_def "1lin" = Except.error ConfigError.unknownModel ∧
    get_model_from_def "not_a_preset" = Except.error ConfigError.unknownModel :=
  ⟨rfl, rfl⟩

/-- Claim C7 (amended): the presets are checked by independent `if` branches
with the unconditional failure attached only to the last branch; the
consequence is the opposite of the claimed fall-through: `get_model_from_def`
succeeds exactly on `'5km27_lag'`, and every other name — including the
earlier presets, which match their branch and build their model first —
raises (for `'3km27_lag'`, via the exception propagating out of its
`get_model_from_dict` call). -/
theorem get_model_from_def_amended (name : String) :
    (∃ m, get_model_from_def name = Except.ok m) ↔ name = "5km27_lag" := by
  constructor
  · rintro ⟨m, hm⟩
    by_contra h5
    by_cases h3 : name = "3km27_lag"
    · subst h3
      rw [show get_model_from_def "3km27_lag" =
          Except.error ConfigError.unknownModelClass from rfl] at hm
      exact Except.noConfusion hm
    · rw [gmfd_error_of_not_special name h3 h5] at hm
      exact Except.noConfusion hm
  · rintro rfl
    exact ⟨_, rfl⟩

/-- Witness for C7's amended theorem at the one succeeding name. -/
theorem get_model_from_def_amended_witness :
    ∃ m, get_model_from_def "5km27_lag" = Except.ok m :=
  (get_model_from_def_amended "5km27_lag").mpr rfl

/-- Claim C9: for every argument mapping, `get_clusterer` with the name
`'MiniBatchKMeans'` returns the same thing as with the name `'KMeans'` — an
instance constructed from sklearn's `KMeans` class — not a MiniBatchKMeans
instance. -/
theorem get_clusterer_minibatch_is_kmeans (kwargs : List (String × String)) :
    get_clusterer (ClassRef.byName "MiniBatchKMeans") kwargs = some ⟨"KMeans", kwargs⟩ ∧
    get_clusterer (ClassRef.byName "MiniBatchKMeans") kwargs =
      get_clusterer (ClassRef.byName "KMeans") kwargs ∧
    (get_clusterer (ClassRef.byName "MiniBatchKMeans") kwargs).map Clusterer.cls ≠
      some "MiniBatchKMeans" := by
  refine ⟨rfl, rfl, ?_⟩
  have hred : (get_clusterer (ClassRef.byName "MiniBatchKMeans") kwargs).map Clusterer.cls =
      some "KMeans" := rfl
  rw [hred]
  decide

/-- Witness for C9 at the empty argument mapping. -/
theorem get_clusterer_minibatch_is_kmeans_witness :
    get_clusterer (ClassRef.byName "MiniBatchKMeans") [] = some ⟨"KMeans", []⟩ ∧
    get_clusterer (ClassRef.byName "MiniBatchKMeans") [] =
      get_clusterer (ClassRef.byName "KMeans") [] ∧
    (get_clusterer (ClassRef.byName "MiniBatchKMeans") []).map Clusterer.cls ≠
      some "MiniBatchKMeans" :=
  get_clusterer_minibatch_is_kmeans []

/-- Minimal dictionary without a forcing_vars key, for the C10 witness. -/
def dict_c10 : ModelDict where
  transforms := none
  cls := ClassRef.byName "LinearRegression"
  args := none
  clusterregression := none
  lag := none
  markov := none
  forcing_vars := none

/-- The model `dict_c10` assembles to. -/
def bm_c10 : BuiltModel :=
  ⟨Model.pipeline [] (Model.base "LinearRegression" []), MET_VARS, true⟩

/-- Claim C10: when the PipelineSpec has no forcing_vars key, the assembled
estimator's forcing_vars attribute is the default `MET_VARS` list, and the
warning was printed — so every successfully assembled estimator carries a
forcing_vars attribute. -/
theorem default_forcing_vars (d : ModelDict) (bm : BuiltModel)
    (hfv : d.forcing_vars = none) (h : get_model_from_dict d = Except.ok bm) :
    bm.forcing_vars = MET_VARS ∧ bm.warned = true := by
  rw [get_model_from_dict_cases d] at h
  split at h
  · exact Except.noConfusion h
  · rename_i s hT
    split at h
    · exact Except.noConfusion h
    · rename_i base hB
      rw [hfv] at h
      have h2 : Except.ok (⟨specWrap d (Model.pipeline s (specCore d base)),
          MET_VARS, true⟩ : BuiltModel) = Except.ok bm := h
      cases h2
      exact ⟨rfl, rfl⟩

/-- Witness for C10 on the minimal dictionary. -/
theorem default_forcing_vars_witness :
    dict_c10.forcing_vars = none ∧ get_model_from_dict dict_c10 = Except.ok bm_c10 ∧
    (bm_c10.forcing_vars = MET_VARS ∧ bm_c10.warned = true) :=
  ⟨rfl, rfl, default_forcing_vars dict_c10 bm_c10 rfl rfl⟩

end EmpiricalLsm
